import Mathlib

/-!
# Verification of the `ChildProcess` process supervisor

Shallow embedding of `src/src/shared/utilities/childProcess.ts`
(class `ChildProcess`) and proofs about it.

The supervisor is single-threaded and event-driven: after `run()` spawns
the OS process, all observable behaviour is the sequential processing of
events delivered by the runtime (stream data, stream/process errors,
timeout expiry, `exit`, `close`).  We embed it as a state machine: a
`RunState` record mirroring the instance fields of the class, and a
`step` function mirroring the listeners registered in `run()`.  A run is
a fold of `step` over a list of `REvent`s.

Modelling conventions:
* JS `Error` objects are modelled by their message (`String`).
* JS `null`/`undefined` flowing through `code`/`signal`/`error` fields is
  modelled by `Option`.  The `exitCode` field of `ChildProcessResult` is
  `Option Int` because the `close` listener passes the raw (possibly
  null) close code into the result.
* `Array.prototype.join()` with no argument joins with `","` — modelled
  faithfully by `joinDefault`.
* The promise returned by `run()` is modelled by `Settle`
  (pending / resolved / rejected); `resolve`/`reject` are first-call-wins.
* `run(...).finally(cleanup)` removes all listeners once the promise
  settles, so events delivered after settlement are not observed: `step`
  is the identity on settled states.
* `stop()`'s forced escalation (`waitUntil` + `SIGKILL`) runs
  asynchronously and is modelled separately (`forceStopEscalation`);
  `waitUntil` lives in `timeoutUtils.ts`, which is not part of the
  sources, and is modelled from the spec.
* The `reportError` callback given to `onStdout`/`onStderr` interceptors
  invokes the same `errorHandler` as a stream `error` event, so it is
  covered by the `procError` event.
-/

namespace ChildProcessModel

/-- A JS `Error`, identified by its message. -/
abbrev JsError := String

/-- Embeds `ChildProcessResult` (childProcess.ts:50-58).  `exitCode` is
`Option Int` because the `close` listener forwards the raw — possibly
null — close code into the result without mapping it. -/
structure ChildProcessResult where
  exitCode : Option Int
  error : Option JsError
  stdout : String
  stderr : String
  signal : Option String
deriving Repr, DecidableEq

/-- The `rejectOnError` option: `false`, `true`, or a mapping callback
(childProcess.ts:32). -/
inductive RejectOnError where
  | disabled
  | enabled
  | mapper (f : JsError → JsError)

/-- The `rejectOnExit` option: `false`, `true`, or a mapping callback
(childProcess.ts:34). -/
inductive RejectOnExit where
  | disabled
  | enabled
  | mapper (f : Int → JsError)

/-- Merged run options after `run()` applies its defaults
(childProcess.ts:117-127).  `hasTimeout`/`timeoutCompleted` embed the
optional `Timeout` token and its `completed` flag at attach time. -/
structure RunOptions where
  collect : Bool := true
  waitForStreams : Bool := true
  useForceStop : Bool := false
  rejectOnError : RejectOnError := .disabled
  rejectOnExit : RejectOnExit := .disabled
  hasTimeout : Bool := false
  timeoutCompleted : Bool := false

/-- State of the promise returned by `run()`. -/
inductive Settle where
  | pending
  | resolved (r : ChildProcessResult)
  | rejected (e : JsError)
deriving Repr, DecidableEq

/-- Instance state of a `ChildProcess` object, plus the per-run promise
state (`settle`), the once-guards of the `exit`/`close` listeners, and
instrumentation recording the `stop()` calls made by the handlers
(`stopCalls` records the `force` argument of each call, `killSignals`
the signal of each `child.kill` actually issued). -/
structure RunState where
  childProcess : Bool := false
  processErrors : List JsError := []
  processResult : Option ChildProcessResult := none
  stdoutChunks : List String := []
  stderrChunks : List String := []
  settle : Settle := .pending
  exitFired : Bool := false
  closeFired : Bool := false
  stopCalls : List Bool := []
  killSignals : List (Option String) := []
deriving Repr, DecidableEq

/-- JS `Array.prototype.join()` with no argument: elements joined with
`","` (used at childProcess.ts:82-83). -/
def joinDefault (chunks : List String) : String :=
  String.intercalate "," chunks

/-- JS `String.prototype.trim()`: strip leading and trailing whitespace
(spelled out over the character list so that it evaluates by
reduction). -/
def jsTrim (s : String) : String :=
  ⟨((s.data.dropWhile Char.isWhitespace).reverse.dropWhile
      Char.isWhitespace).reverse⟩

/-- Embeds `ChildProcess.makeResult` (childProcess.ts:79-87).  The
`code`/`signal` arguments are whatever the calling listener passes. -/
def makeResult (s : RunState) (code : Option Int) (signal : Option String) :
    ChildProcessResult :=
  { exitCode := code
    stdout := jsTrim (joinDefault s.stdoutChunks)
    stderr := jsTrim (joinDefault s.stderrChunks)
    error := s.processErrors.head?
    signal := signal }

/-- Embeds the `stopped` getter (childProcess.ts:291-296): false when
not started, else "a result has been produced". -/
def RunState.stopped (s : RunState) : Bool :=
  s.childProcess && s.processResult.isSome

/-- Embeds `ChildProcess.stop` (childProcess.ts:255-279), minus the
asynchronous forced escalation (see `forceStopEscalation`).  Returns the
new state and whether the call threw the already-killed error. -/
def stop (force : Bool) (signal : Option String) (s : RunState) :
    RunState × Bool :=
  if !s.childProcess then (s, false)
  else if !s.stopped then
    ({ s with stopCalls := s.stopCalls ++ [force]
              killSignals := s.killSignals ++ [signal] }, false)
  else (s, true)

/-- `resolve r`: first settlement wins. -/
def resolveP (r : ChildProcessResult) (s : RunState) : RunState :=
  match s.settle with
  | .pending => { s with settle := .resolved r }
  | _ => s

/-- `reject e`: first settlement wins. -/
def rejectP (e : JsError) (s : RunState) : RunState :=
  match s.settle with
  | .pending => { s with settle := .rejected e }
  | _ => s

/-- `this.processErrors.push(error)` (childProcess.ts:131). -/
def recordError (e : JsError) (s : RunState) : RunState :=
  { s with processErrors := s.processErrors ++ [e] }

/-- `if (!this.stopped) { this.stop(force) }` (childProcess.ts:132-134). -/
def stopUnlessStopped (force : Bool) (s : RunState) : RunState :=
  if !s.stopped then (stop force none s).1 else s

/-- The reject-on-error policy step of the error handler
(childProcess.ts:135-141). -/
def applyRejectOnError (pol : RejectOnError) (e : JsError) (s : RunState) :
    RunState :=
  match pol with
  | .disabled => s
  | .enabled => rejectP e s
  | .mapper f => rejectP (f e) s

/-- Embeds the local `errorHandler` closure (childProcess.ts:130-142):
record the error, stop the process unless already stopped, then apply
the reject-on-error policy. -/
def errorHandler (opts : RunOptions) (error : JsError) (force : Bool)
    (s : RunState) : RunState :=
  applyRejectOnError opts.rejectOnError error
    (stopUnlessStopped force (recordError error s))

/-- Events delivered by the runtime to the listeners `run()` registers.
`procError` covers the `error` events of the process handle and of both
streams, and errors reported through the interceptors' `reportError`;
`timerExpired` is the rejection of `timeout.timer`. -/
inductive REvent where
  | stdoutData (text : String)
  | stderrData (text : String)
  | procError (e : JsError)
  | timerExpired (e : JsError)
  | exited (code : Option Int) (signal : Option String)
  | closed (code : Option Int) (signal : Option String)

/-- The reject-on-exit policy applied by the `exit` listener
(childProcess.ts:213-219): `if (code && rejectOnExit)` — both JS-truthy,
i.e. a non-null, non-zero code and a non-false policy. -/
def applyRejectOnExit (pol : RejectOnExit) (code : Option Int)
    (s : RunState) : RunState :=
  match code with
  | some c =>
    if c ≠ 0 then
      match pol with
      | .disabled => s
      | .enabled =>
        rejectP ("Command exited with non-zero code: " ++ toString c) s
      | .mapper f => rejectP (f c) s
    else s
  | none => s

/-- The `exit` listener (childProcess.ts:208-223), a `once` listener:
build the result with `typeof code === 'number' ? code : -1` mapped to
`some (code.getD (-1))` (and `typeof signal === 'string' ? signal :
undefined`, the identity on the `Option`-valued signal), cache it, apply
the reject-on-exit policy, and resolve only when `waitForStreams` is
false. -/
def onExit (opts : RunOptions) (code : Option Int) (signal : Option String)
    (s : RunState) : RunState :=
  if s.exitFired then s
  else
    let r := makeResult s (some (code.getD (-1))) signal
    let s1 := applyRejectOnExit opts.rejectOnExit code
      { s with exitFired := true, processResult := some r }
    if opts.waitForStreams = false then resolveP r s1 else s1

/-- The `close` listener (childProcess.ts:198-201), a `once` listener:
build the result from the raw close code and signal, cache it, and
resolve. -/
def onClose (code : Option Int) (signal : Option String) (s : RunState) :
    RunState :=
  if s.closeFired then s
  else
    let r := makeResult s code signal
    resolveP r { s with closeFired := true, processResult := some r }

/-- One event-processing step: the listeners registered by `run()`
(childProcess.ts:176-223).  Once the promise settles, `cleanup` has
removed every listener, so settled states are fixed. -/
def step (opts : RunOptions) (s : RunState) (e : REvent) : RunState :=
  if s.settle ≠ .pending then s
  else
    match e with
    | .stdoutData t =>
      if opts.collect then { s with stdoutChunks := s.stdoutChunks ++ [t] }
      else s
    | .stderrData t =>
      if opts.collect then { s with stderrChunks := s.stderrChunks ++ [t] }
      else s
    | .procError err => errorHandler opts err opts.useForceStop s
    | .timerExpired err => errorHandler opts err true s
    | .exited code signal => onExit opts code signal s
    | .closed code signal => onClose code signal s

/-- Outcome of the synchronous `crossSpawn.spawn` call
(childProcess.ts:165): returns a handle, or throws. -/
inductive SpawnOutcome where
  | ok
  | throws (e : JsError)

/-- Outcome of one `run()` call: whether the already-started guard threw
synchronously, whether `spawn` was reached, and the state after the
executor ran and the given events were delivered. -/
structure RunOutcome where
  threwAlreadyStarted : Bool
  spawnAttempted : Bool
  finalState : RunState
deriving Repr

/-- The message of the completed-token guard (childProcess.ts:153). -/
def timeoutCompletedMsg : JsError := "Timeout token was already completed."

/-- Per-run reset: a fresh promise and fresh `once` listeners; the
instance fields (`childProcess`, `processErrors`, `processResult`,
the chunk buffers) persist across calls on the same instance. -/
def freshRun (inst : RunState) : RunState :=
  { inst with settle := .pending, exitFired := false, closeFired := false,
              stopCalls := [], killSignals := [] }

/-- Embeds `ChildProcess.run` (childProcess.ts:104-225) on an instance
in state `inst`: the already-started guard, the completed-timeout guard
(a throw inside the promise executor, i.e. a rejected promise), the
spawn attempt, then the delivery of `events` to the listeners. -/
def runModel (inst : RunState) (opts : RunOptions) (spawn : SpawnOutcome)
    (events : List REvent) : RunOutcome :=
  if inst.childProcess then
    { threwAlreadyStarted := true, spawnAttempted := false,
      finalState := inst }
  else if opts.hasTimeout && opts.timeoutCompleted then
    { threwAlreadyStarted := false, spawnAttempted := false,
      finalState := { freshRun inst with settle := .rejected timeoutCompletedMsg } }
  else
    match spawn with
    | .throws e =>
      { threwAlreadyStarted := false, spawnAttempted := true,
        finalState := errorHandler opts e opts.useForceStop (freshRun inst) }
    | .ok =>
      { threwAlreadyStarted := false, spawnAttempted := true,
        finalState :=
          events.foldl (step opts) { freshRun inst with childProcess := true } }

/-- The state right after a fresh instance's `run()` successfully
spawned, before any event. -/
def started : RunState := { childProcess := true }

/-- Default options of a plain `run()` call on an instance constructed
with no options. -/
def defaultOpts : RunOptions := {}

/-- The error events of a trace, in delivery order. -/
def eventError : REvent → Option JsError
  | .procError e => some e
  | .timerExpired e => some e
  | _ => none

/-- All errors observed along a trace, in order. -/
def errorsOf (events : List REvent) : List JsError :=
  events.filterMap eventError

/-- The prefix of a trace actually observed by the listeners: delivery
stops mattering once the promise settles (listeners are removed). -/
def observedPrefix (opts : RunOptions) : RunState → List REvent → List REvent
  | _, [] => []
  | s, e :: rest =>
    if s.settle ≠ .pending then []
    else e :: observedPrefix opts (step opts s e) rest

/-- Projection: the exit code carried by a resolved settlement, if any. -/
def Settle.resolvedExit : Settle → Option (Option Int)
  | .resolved r => some r.exitCode
  | _ => none

/-- Times (ms since the wait began) at which the bounded wait polls its
condition: every `interval` ms, strictly before the `deadline`. -/
def pollTimes (deadline interval : Nat) : List Nat :=
  (List.range (deadline / interval)).map (· * interval)

/-- Modelled from the spec: `waitUntil` (from `shared/utilities/timeoutUtils`,
which is not among the sources) polls the given condition about every
`interval` ms until the `deadline` ms elapses, resolving true at the first
successful poll and false once the deadline elapses without one. -/
def waitUntilModel (cond : Nat → Bool) (deadline interval : Nat) : Bool :=
  (pollTimes deadline interval).any cond

/-- Observable effects of the asynchronous forced-stop escalation:
whether `child.kill('SIGKILL')` was issued, whether the warning was
logged, and whether any error escaped the escalation chain. -/
structure StopEscalation where
  sigkillSent : Bool
  warnLogged : Bool
  errorPropagated : Bool
deriving Repr, DecidableEq

/-- Embeds the `force === true` branch of `ChildProcess.stop`
(childProcess.ts:265-275): wait (3000ms deadline, 200ms interval) for
`stopped`; if still not stopped, `child.kill('SIGKILL')`; a throw from
the chain (e.g. the kill failing) is caught and logged as a warning and
never rethrown.  `stoppedPoll t` is the value of `this.stopped` at poll
time `t`; `sigkillFails` is whether the SIGKILL delivery throws. -/
def forceStopEscalation (stoppedPoll : Nat → Bool) (sigkillFails : Bool) :
    StopEscalation :=
  if waitUntilModel stoppedPoll 3000 200 then
    { sigkillSent := false, warnLogged := false, errorPropagated := false }
  else if sigkillFails then
    { sigkillSent := true, warnLogged := true, errorPropagated := false }
  else
    { sigkillSent := true, warnLogged := false, errorPropagated := false }

/-! ## Basic lemmas about the step function -/

theorem step_of_settled (opts : RunOptions) (s : RunState) (e : REvent)
    (h : s.settle ≠ .pending) : step opts s e = s := by
  simp [step, h]

theorem foldl_step_of_settled (opts : RunOptions) (s : RunState)
    (events : List REvent) (h : s.settle ≠ .pending) :
    events.foldl (step opts) s = s := by
  induction events with
  | nil => rfl
  | cons e rest ih => simp [List.foldl_cons, step_of_settled opts s e h, ih]

theorem resolveP_processErrors (r : ChildProcessResult) (s : RunState) :
    (resolveP r s).processErrors = s.processErrors := by
  unfold resolveP
  split <;> rfl

theorem rejectP_processErrors (e : JsError) (s : RunState) :
    (rejectP e s).processErrors = s.processErrors := by
  unfold rejectP
  split <;> rfl

theorem stop_processErrors (force : Bool) (sg : Option String)
    (s : RunState) : ((stop force sg s).1).processErrors = s.processErrors := by
  unfold stop
  split
  · rfl
  · split <;> rfl

theorem stopUnlessStopped_processErrors (force : Bool) (s : RunState) :
    (stopUnlessStopped force s).processErrors = s.processErrors := by
  unfold stopUnlessStopped
  split
  · exact stop_processErrors _ _ _
  · rfl

theorem applyRejectOnError_processErrors (pol : RejectOnError) (e : JsError)
    (s : RunState) :
    (applyRejectOnError pol e s).processErrors = s.processErrors := by
  cases pol with
  | disabled => rfl
  | enabled => exact rejectP_processErrors _ _
  | mapper f => exact rejectP_processErrors _ _

theorem applyRejectOnExit_processErrors (pol : RejectOnExit)
    (code : Option Int) (s : RunState) :
    (applyRejectOnExit pol code s).processErrors = s.processErrors := by
  cases code with
  | none => rfl
  | some c =>
    simp only [applyRejectOnExit]
    split
    · cases pol with
      | disabled => rfl
      | enabled => exact rejectP_processErrors _ _
      | mapper f => exact rejectP_processErrors _ _
    · rfl

theorem errorHandler_processErrors (opts : RunOptions) (e : JsError)
    (force : Bool) (s : RunState) :
    (errorHandler opts e force s).processErrors = s.processErrors ++ [e] := by
  unfold errorHandler
  rw [applyRejectOnError_processErrors, stopUnlessStopped_processErrors]
  rfl

theorem onExit_processErrors (opts : RunOptions) (code : Option Int)
    (sg : Option String) (s : RunState) :
    (onExit opts code sg s).processErrors = s.processErrors := by
  unfold onExit
  split
  · rfl
  · split
    · rw [resolveP_processErrors, applyRejectOnExit_processErrors]
    · rw [applyRejectOnExit_processErrors]

theorem onClose_processErrors (code : Option Int) (sg : Option String)
    (s : RunState) :
    (onClose code sg s).processErrors = s.processErrors := by
  unfold onClose
  split
  · rfl
  · rw [resolveP_processErrors]

theorem step_processErrors (opts : RunOptions) (s : RunState) (e : REvent)
    (h : s.settle = .pending) :
    (step opts s e).processErrors
      = s.processErrors ++ (eventError e).toList := by
  cases e with
  | stdoutData t =>
    simp [step, h, eventError]
    split <;> rfl
  | stderrData t =>
    simp [step, h, eventError]
    split <;> rfl
  | procError err =>
    simp [step, h, eventError, errorHandler_processErrors]
  | timerExpired err =>
    simp [step, h, eventError, errorHandler_processErrors]
  | exited code signal =>
    simp [step, h, eventError, onExit_processErrors]
  | closed code signal =>
    simp [step, h, eventError, onClose_processErrors]

/-! ## Frame lemmas: which fields each operation can touch -/

@[simp] theorem resolveP_childProcess (r : ChildProcessResult) (s : RunState) :
    (resolveP r s).childProcess = s.childProcess := by
  unfold resolveP
  split <;> rfl

@[simp] theorem rejectP_childProcess (e : JsError) (s : RunState) :
    (rejectP e s).childProcess = s.childProcess := by
  unfold rejectP
  split <;> rfl

@[simp] theorem resolveP_processResult (r : ChildProcessResult)
    (s : RunState) : (resolveP r s).processResult = s.processResult := by
  unfold resolveP
  split <;> rfl

@[simp] theorem rejectP_processResult (e : JsError) (s : RunState) :
    (rejectP e s).processResult = s.processResult := by
  unfold rejectP
  split <;> rfl

@[simp] theorem resolveP_stopCalls (r : ChildProcessResult) (s : RunState) :
    (resolveP r s).stopCalls = s.stopCalls := by
  unfold resolveP
  split <;> rfl

@[simp] theorem rejectP_stopCalls (e : JsError) (s : RunState) :
    (rejectP e s).stopCalls = s.stopCalls := by
  unfold rejectP
  split <;> rfl

@[simp] theorem stop_fst_childProcess (force : Bool) (sg : Option String)
    (s : RunState) : ((stop force sg s).1).childProcess = s.childProcess := by
  unfold stop
  split
  · rfl
  · split <;> rfl

@[simp] theorem stop_fst_processResult (force : Bool) (sg : Option String)
    (s : RunState) : ((stop force sg s).1).processResult = s.processResult := by
  unfold stop
  split
  · rfl
  · split <;> rfl

@[simp] theorem stopUnlessStopped_childProcess (force : Bool) (s : RunState) :
    (stopUnlessStopped force s).childProcess = s.childProcess := by
  unfold stopUnlessStopped
  split
  · exact stop_fst_childProcess _ _ _
  · rfl

@[simp] theorem stopUnlessStopped_processResult (force : Bool)
    (s : RunState) :
    (stopUnlessStopped force s).processResult = s.processResult := by
  unfold stopUnlessStopped
  split
  · exact stop_fst_processResult _ _ _
  · rfl

@[simp] theorem applyRejectOnError_childProcess (pol : RejectOnError)
    (e : JsError) (s : RunState) :
    (applyRejectOnError pol e s).childProcess = s.childProcess := by
  cases pol <;> simp [applyRejectOnError]

@[simp] theorem applyRejectOnError_processResult (pol : RejectOnError)
    (e : JsError) (s : RunState) :
    (applyRejectOnError pol e s).processResult = s.processResult := by
  cases pol <;> simp [applyRejectOnError]

@[simp] theorem applyRejectOnError_stopCalls (pol : RejectOnError)
    (e : JsError) (s : RunState) :
    (applyRejectOnError pol e s).stopCalls = s.stopCalls := by
  cases pol <;> simp [applyRejectOnError]

theorem applyRejectOnExit_disabled (code : Option Int) (s : RunState) :
    applyRejectOnExit .disabled code s = s := by
  cases code with
  | none => rfl
  | some c => simp only [applyRejectOnExit]; split <;> rfl

@[simp] theorem applyRejectOnExit_childProcess (pol : RejectOnExit)
    (code : Option Int) (s : RunState) :
    (applyRejectOnExit pol code s).childProcess = s.childProcess := by
  cases code with
  | none => rfl
  | some c =>
    simp only [applyRejectOnExit]
    split
    · cases pol <;> simp [applyRejectOnError]
    · rfl

@[simp] theorem applyRejectOnExit_processResult (pol : RejectOnExit)
    (code : Option Int) (s : RunState) :
    (applyRejectOnExit pol code s).processResult = s.processResult := by
  cases code with
  | none => rfl
  | some c =>
    simp only [applyRejectOnExit]
    split
    · cases pol <;> simp
    · rfl

@[simp] theorem errorHandler_childProcess (opts : RunOptions) (e : JsError)
    (force : Bool) (s : RunState) :
    (errorHandler opts e force s).childProcess = s.childProcess := by
  simp [errorHandler, recordError]

@[simp] theorem errorHandler_processResult (opts : RunOptions) (e : JsError)
    (force : Bool) (s : RunState) :
    (errorHandler opts e force s).processResult = s.processResult := by
  simp [errorHandler, recordError]

@[simp] theorem onExit_childProcess (opts : RunOptions) (code : Option Int)
    (sg : Option String) (s : RunState) :
    (onExit opts code sg s).childProcess = s.childProcess := by
  unfold onExit
  split
  · rfl
  · split <;> simp

@[simp] theorem onClose_childProcess (code : Option Int) (sg : Option String)
    (s : RunState) : (onClose code sg s).childProcess = s.childProcess := by
  unfold onClose
  split
  · rfl
  · simp

theorem step_childProcess (opts : RunOptions) (s : RunState) (e : REvent) :
    (step opts s e).childProcess = s.childProcess := by
  by_cases hp : s.settle = .pending
  · cases e <;> simp [step, hp] <;> split <;> rfl
  · rw [step_of_settled opts s e hp]

theorem onExit_processResult_of_live (opts : RunOptions) (code : Option Int)
    (sg : Option String) (s : RunState) (h : s.exitFired = false) :
    (onExit opts code sg s).processResult
      = some (makeResult s (some (code.getD (-1))) sg) := by
  unfold onExit
  rw [if_neg (by simp [h])]
  split <;> simp

theorem onClose_processResult_of_live (code : Option Int)
    (sg : Option String) (s : RunState) (h : s.closeFired = false) :
    (onClose code sg s).processResult = some (makeResult s code sg) := by
  unfold onClose
  rw [if_neg (by simp [h])]
  simp

theorem step_processResult_isSome (opts : RunOptions) (s : RunState)
    (e : REvent) (h : s.processResult.isSome = true) :
    (step opts s e).processResult.isSome = true := by
  by_cases hp : s.settle = .pending
  · cases e with
    | stdoutData t => simp [step, hp]; split <;> simp [h]
    | stderrData t => simp [step, hp]; split <;> simp [h]
    | procError err => simp [step, hp, h]
    | timerExpired err => simp [step, hp, h]
    | exited code signal =>
      simp only [step, hp]
      by_cases hf : s.exitFired = true
      · simp [onExit, hf, h]
      · simp [onExit_processResult_of_live opts code signal s
          (by simpa using hf)]
    | closed code signal =>
      simp only [step, hp]
      by_cases hf : s.closeFired = true
      · simp [onClose, hf, h]
      · simp [onClose_processResult_of_live code signal s
          (by simpa using hf)]
  · rw [step_of_settled opts s e hp]
    exact h

theorem step_stopped (opts : RunOptions) (s : RunState) (e : REvent)
    (h : s.stopped = true) : (step opts s e).stopped = true := by
  unfold RunState.stopped at h ⊢
  rw [Bool.and_eq_true] at h
  rw [Bool.and_eq_true, step_childProcess]
  exact ⟨h.1, step_processResult_isSome opts s e h.2⟩

/-! ## How each operation can change the promise state -/

@[simp] theorem stop_fst_settle (force : Bool) (sg : Option String)
    (s : RunState) : ((stop force sg s).1).settle = s.settle := by
  unfold stop
  split
  · rfl
  · split <;> rfl

@[simp] theorem stopUnlessStopped_settle (force : Bool) (s : RunState) :
    (stopUnlessStopped force s).settle = s.settle := by
  unfold stopUnlessStopped
  split
  · exact stop_fst_settle _ _ _
  · rfl

theorem applyRejectOnError_settle_not_resolved (pol : RejectOnError)
    (e : JsError) (s : RunState) (h : s.settle = .pending)
    (r : ChildProcessResult) :
    (applyRejectOnError pol e s).settle ≠ .resolved r := by
  cases pol <;> simp [applyRejectOnError, rejectP, h]

theorem errorHandler_settle_not_resolved (opts : RunOptions) (e : JsError)
    (force : Bool) (s : RunState) (h : s.settle = .pending)
    (r : ChildProcessResult) :
    (errorHandler opts e force s).settle ≠ .resolved r := by
  unfold errorHandler
  exact applyRejectOnError_settle_not_resolved _ _ _
    (by simp [recordError, h]) r

theorem rejectP_settle_cases (e : JsError) (s : RunState) :
    (rejectP e s).settle = s.settle ∨ (rejectP e s).settle = .rejected e := by
  unfold rejectP
  split
  · exact Or.inr rfl
  · exact Or.inl rfl

theorem applyRejectOnExit_settle_cases (pol : RejectOnExit)
    (code : Option Int) (s : RunState) :
    (applyRejectOnExit pol code s).settle = s.settle
    ∨ ∃ x, (applyRejectOnExit pol code s).settle = .rejected x := by
  cases code with
  | none => exact Or.inl rfl
  | some c =>
    simp only [applyRejectOnExit]
    split
    · cases pol with
      | disabled => exact Or.inl rfl
      | enabled =>
        rcases rejectP_settle_cases _ s with h | h
        · exact Or.inl h
        · exact Or.inr ⟨_, h⟩
      | mapper f =>
        rcases rejectP_settle_cases _ s with h | h
        · exact Or.inl h
        · exact Or.inr ⟨_, h⟩
    · exact Or.inl rfl

theorem resolveP_settle_resolved (r0 : ChildProcessResult) (s : RunState)
    (r : ChildProcessResult)
    (hr : (resolveP r0 s).settle = .resolved r) :
    r = r0 ∨ s.settle = .resolved r := by
  unfold resolveP at hr
  split at hr
  · simp only at hr
    simp at hr
    exact Or.inl hr.symm
  · exact Or.inr hr

theorem onExit_settle_resolved (opts : RunOptions) (code : Option Int)
    (sg : Option String) (s : RunState) (r : ChildProcessResult)
    (hp : s.settle = .pending)
    (hr : (onExit opts code sg s).settle = .resolved r) :
    r = makeResult s (some (code.getD (-1))) sg := by
  unfold onExit at hr
  by_cases hf : s.exitFired = true
  · rw [if_pos (by simpa using hf), hp] at hr
    simp at hr
  · rw [if_neg (by simpa using hf)] at hr
    simp only at hr
    by_cases hw : opts.waitForStreams = false
    · rw [if_pos hw] at hr
      rcases resolveP_settle_resolved _ _ _ hr with h | h
      · exact h
      · rcases applyRejectOnExit_settle_cases opts.rejectOnExit code
          { s with exitFired := true,
                   processResult :=
                     some (makeResult s (some (code.getD (-1))) sg) }
          with hc | ⟨x, hc⟩
        · rw [h] at hc
          simp [hp] at hc
        · rw [h] at hc
          simp at hc
    · rw [if_neg hw] at hr
      rcases applyRejectOnExit_settle_cases opts.rejectOnExit code
        { s with exitFired := true,
                 processResult :=
                   some (makeResult s (some (code.getD (-1))) sg) }
        with hc | ⟨x, hc⟩
      · rw [hr] at hc
        simp [hp] at hc
      · rw [hr] at hc
        simp at hc

theorem onClose_settle_resolved (code : Option Int) (sg : Option String)
    (s : RunState) (r : ChildProcessResult) (hp : s.settle = .pending)
    (hr : (onClose code sg s).settle = .resolved r) :
    r = makeResult s code sg := by
  unfold onClose at hr
  by_cases hc : s.closeFired = true
  · rw [if_pos (by simpa using hc), hp] at hr
    simp at hr
  · rw [if_neg (by simpa using hc)] at hr
    simp only at hr
    rcases resolveP_settle_resolved _ _ _ hr with h | h
    · exact h
    · simp [hp] at h

/-! ## First-error invariant -/

/-- Any resolved settlement carries as its `error` the head of the
error list at the moment of resolution — which, since errors are only
ever appended, is the head of the current error list. -/
def ResolvedErrInv (s : RunState) : Prop :=
  ∀ r, s.settle = .resolved r → r.error = s.processErrors.head?

theorem errorsOf_cons (e : REvent) (l : List REvent) :
    errorsOf (e :: l) = (eventError e).toList ++ errorsOf l := by
  cases he : eventError e <;> simp [errorsOf, List.filterMap_cons, he]

theorem step_preserves_resolvedErrInv (opts : RunOptions) (s : RunState)
    (e : REvent) (hInv : ResolvedErrInv s) :
    ResolvedErrInv (step opts s e) := by
  by_cases hp : s.settle = .pending
  · intro r hr
    have hpe := step_processErrors opts s e hp
    cases e with
    | stdoutData t =>
      simp only [step, hp] at hr
      simp at hr
      split at hr <;> simp [hp] at hr
    | stderrData t =>
      simp only [step, hp] at hr
      simp at hr
      split at hr <;> simp [hp] at hr
    | procError err =>
      simp [step, hp] at hr
      exact absurd hr (errorHandler_settle_not_resolved _ _ _ _ hp r)
    | timerExpired err =>
      simp [step, hp] at hr
      exact absurd hr (errorHandler_settle_not_resolved _ _ _ _ hp r)
    | exited code sg =>
      simp [step, hp] at hr
      have hre := onExit_settle_resolved opts code sg s r hp hr
      rw [hpe]
      simp [eventError, hre, makeResult]
    | closed code sg =>
      simp [step, hp] at hr
      have hre := onClose_settle_resolved code sg s r hp hr
      rw [hpe]
      simp [eventError, hre, makeResult]
  · rw [step_of_settled opts s e hp]
    exact hInv

theorem foldl_preserves_resolvedErrInv (opts : RunOptions)
    (events : List REvent) :
    ∀ (s : RunState), ResolvedErrInv s →
      ResolvedErrInv (events.foldl (step opts) s) := by
  induction events with
  | nil => intro s h; exact h
  | cons e rest ih =>
    intro s h
    exact ih (step opts s e) (step_preserves_resolvedErrInv opts s e h)

theorem foldl_processErrors (opts : RunOptions) (events : List REvent) :
    ∀ (s : RunState),
      (events.foldl (step opts) s).processErrors
        = s.processErrors ++ errorsOf (observedPrefix opts s events) := by
  induction events with
  | nil => intro s; simp [errorsOf, observedPrefix]
  | cons e rest ih =>
    intro s
    by_cases hp : s.settle = .pending
    · rw [List.foldl_cons, ih (step opts s e), step_processErrors opts s e hp,
        observedPrefix, if_neg (by simp [hp]), errorsOf_cons,
        List.append_assoc]
    · rw [List.foldl_cons, step_of_settled opts s e hp,
        foldl_step_of_settled opts s rest hp, observedPrefix,
        if_pos (by simpa using hp)]
      simp [errorsOf]

theorem runModel_ok_eq (opts : RunOptions) (events : List REvent)
    (hg : (opts.hasTimeout && opts.timeoutCompleted) = false) :
    runModel {} opts .ok events
      = { threwAlreadyStarted := false, spawnAttempted := true,
          finalState := events.foldl (step opts) started } := by
  unfold runModel
  rw [if_neg (by decide), if_neg (by simp [hg])]
  rfl

/-! ## Characterizations of the terminal listeners and of stop -/

theorem onExit_default_eq (code : Option Int) (sg : Option String)
    (s : RunState) (hf : s.exitFired = false) :
    onExit defaultOpts code sg s
      = { s with exitFired := true,
                 processResult :=
                   some (makeResult s (some (code.getD (-1))) sg) } := by
  unfold onExit
  rw [if_neg (by simp [hf])]
  simp only [defaultOpts]
  rw [applyRejectOnExit_disabled]
  simp

theorem onClose_pending_eq (code : Option Int) (sg : Option String)
    (s : RunState) (hp : s.settle = .pending) (hc : s.closeFired = false) :
    onClose code sg s
      = { s with closeFired := true,
                 processResult := some (makeResult s code sg),
                 settle := .resolved (makeResult s code sg) } := by
  unfold onClose
  rw [if_neg (by simp [hc])]
  simp [resolveP, hp]

theorem stop_snd_of_stopped (force : Bool) (sg : Option String)
    (s : RunState) (h : s.stopped = true) : (stop force sg s).2 = true := by
  have hcp : s.childProcess = true := by
    unfold RunState.stopped at h
    simp at h
    exact h.1
  unfold stop
  rw [if_neg (by simp [hcp]), if_neg (by simp [h])]

theorem errorHandler_stopCalls_of_live (opts : RunOptions) (e : JsError)
    (force : Bool) (s : RunState) (hcp : s.childProcess = true)
    (hpr : s.processResult = none) :
    (errorHandler opts e force s).stopCalls = s.stopCalls ++ [force] := by
  have hstopped : (recordError e s).stopped = false := by
    simp [recordError, RunState.stopped, hpr]
  unfold errorHandler
  rw [applyRejectOnError_stopCalls]
  unfold stopUnlessStopped
  rw [if_pos (by simp [hstopped])]
  unfold stop
  rw [if_neg (by simp [recordError, hcp]), if_pos (by simp [hstopped])]
  rfl

theorem foldl_step_childProcess (opts : RunOptions) (events : List REvent) :
    ∀ (s : RunState),
      (events.foldl (step opts) s).childProcess = s.childProcess := by
  induction events with
  | nil => intro s; rfl
  | cons e rest ih =>
    intro s
    rw [List.foldl_cons, ih (step opts s e), step_childProcess]

/-! ## Claim theorems -/

/-- C1 (code bug): the claim says stdout is the concatenation of the
received chunks, trimmed, with no characters inserted between chunks;
but `makeResult` joins the chunk array with `join()`, whose default
separator is `","`.  A collecting run that receives stdout chunks "a"
then "b" and exits 0 resolves with `stdout = "a,b"`, not the
concatenation `"ab"`. -/
theorem stdout_join_inserts_commas :
    (runModel {} defaultOpts .ok
      [.stdoutData "a", .stdoutData "b", .closed (some 0) none]
    ).finalState.settle
      = .resolved { exitCode := some 0, error := none, stdout := "a,b",
                    stderr := "", signal := none }
    ∧ ("a,b" : String) ≠ "a" ++ "b" := by
  constructor <;> decide

/-- C2 counterexample: with the default `waitForStreams = true`, a
process-exit event delivered before stream-close leaves the run
unresolved (`settle` still pending) yet already assigns and exposes a
cached `processResult` — refuting "result() returns the unset value at
every point before the terminal event that resolves the run". -/
theorem exit_before_close_exposes_result :
    (runModel {} defaultOpts .ok [.exited (some 0) none]).finalState.settle
      = .pending
    ∧ (runModel {} defaultOpts .ok [.exited (some 0) none]
      ).finalState.processResult
        = some { exitCode := some 0, error := none, stdout := "",
                 stderr := "", signal := none } := by
  constructor <;> decide

/-- C2 amended: `processResult` is assigned by each terminal listener
that fires — the exit listener assigns it even when `waitForStreams` is
true (so an exit before close already produces and exposes a result
while the promise is still pending), and the close listener assigns it
again with the resolving result. -/
theorem processResult_assigned_at_exit_and_close :
    ∀ (c c2 : Option Int) (sg sg2 : Option String),
      (step defaultOpts started (.exited c sg)).settle = .pending
      ∧ (step defaultOpts started (.exited c sg)).processResult
          = some (makeResult started (some (c.getD (-1))) sg)
      ∧ (step defaultOpts (step defaultOpts started (.exited c sg))
            (.closed c2 sg2)).settle
          = .resolved
              (makeResult (step defaultOpts started (.exited c sg)) c2 sg2)
      ∧ (step defaultOpts (step defaultOpts started (.exited c sg))
            (.closed c2 sg2)).processResult
          = some
              (makeResult (step defaultOpts started (.exited c sg)) c2 sg2) := by
  intro c c2 sg sg2
  have h1 : step defaultOpts started (.exited c sg)
      = { started with exitFired := true,
                       processResult :=
                         some (makeResult started (some (c.getD (-1))) sg) } := by
    rw [show step defaultOpts started (.exited c sg)
          = onExit defaultOpts c sg started by simp [step, started]]
    exact onExit_default_eq c sg started rfl
  have h2 : step defaultOpts (step defaultOpts started (.exited c sg))
      (.closed c2 sg2)
      = onClose c2 sg2 (step defaultOpts started (.exited c sg)) := by
    rw [h1]
    simp [step, started]
  rw [h1] at h2 ⊢
  rw [h2, onClose_pending_eq c2 sg2 _ rfl rfl]
  exact ⟨rfl, rfl, rfl, rfl⟩

/-- C3 counterexample: a spawn failure delivered as an error event
followed by the close event — the path taken for a non-existent
executable — resolves `run()` with the spawn error recorded, but with
`exitCode` equal to the raw (null) close code, not the −1 sentinel the
claim requires. -/
theorem spawn_failure_resolves_with_null_exitCode :
    (runModel {} defaultOpts .ok
      [.procError "ENOENT", .closed none none]).finalState.settle
      = .resolved { exitCode := none, error := some "ENOENT", stdout := "",
                    stderr := "", signal := none }
    ∧ (runModel {} defaultOpts .ok
        [.procError "ENOENT", .closed none none]
      ).finalState.settle.resolvedExit ≠ some (some (-1)) := by
  constructor <;> decide

/-- C3 amended: under the default reject-on-error policy a spawn
failure never rejects, and any resolved result carries the spawn error
as its `error`; but the resolved `exitCode` is the raw code delivered
by the close event (null when no process ever spawned), not −1 — and a
spawn that throws synchronously leaves `run()` pending forever. -/
theorem spawn_failure_behavior :
    ∀ (e : JsError) (code : Option Int) (sg : Option String),
      (runModel {} defaultOpts .ok [.procError e, .closed code sg]
      ).finalState.settle
        = .resolved { exitCode := code, error := some e, stdout := "",
                      stderr := "", signal := sg }
      ∧ (runModel {} defaultOpts (.throws e) []).finalState.settle
          = .pending := by
  intro e code sg
  exact ⟨rfl, rfl⟩

/-- C5 counterexample: after a first `run()` whose spawn threw
synchronously, no process handle was assigned, so a second `run()` on
the same instance passes the already-started guard and proceeds to
spawn — refuting "every subsequent run() call fails ... regardless of
how it settled". -/
theorem second_run_after_spawn_throw_not_guarded :
    (runModel (runModel {} defaultOpts (.throws "ENOENT") []).finalState
      defaultOpts .ok []).threwAlreadyStarted = false
    ∧ (runModel (runModel {} defaultOpts (.throws "ENOENT") []).finalState
        defaultOpts .ok []).spawnAttempted = true := by
  constructor <;> decide

/-- C5 amended: once a `run()` reached `spawn` and it returned a handle,
the handle stays assigned forever, and every subsequent `run()` on that
instance throws the already-started error immediately (regardless of
how or whether the first run settled); but a first run whose spawn
threw synchronously does not arm the guard. -/
theorem second_run_fails_after_spawned :
    ∀ (inst : RunState) (opts opts2 : RunOptions) (spawn2 : SpawnOutcome)
      (events events2 : List REvent),
      ((opts.hasTimeout && opts.timeoutCompleted) = false →
        (runModel {} opts .ok events).finalState.childProcess = true)
      ∧ (inst.childProcess = true →
          (runModel inst opts2 spawn2 events2).threwAlreadyStarted = true
          ∧ (runModel inst opts2 spawn2 events2).finalState = inst) := by
  intro inst opts opts2 spawn2 events events2
  constructor
  · intro hg
    rw [runModel_ok_eq opts events hg]
    simp only
    rw [foldl_step_childProcess]
    rfl
  · intro hcp
    unfold runModel
    rw [if_pos (by simp [hcp])]
    exact ⟨rfl, rfl⟩

/-- Witness for C5: a first default run that spawned arms the guard;
a run on an instance whose handle is set throws immediately. -/
theorem second_run_fails_after_spawned_witness :
    ((defaultOpts.hasTimeout && defaultOpts.timeoutCompleted) = false
      ∧ started.childProcess = true)
    ∧ ((runModel {} defaultOpts .ok []).finalState.childProcess = true
      ∧ (runModel started defaultOpts .ok []).threwAlreadyStarted = true
      ∧ (runModel started defaultOpts .ok []).finalState = started) :=
  ⟨⟨rfl, rfl⟩,
    (second_run_fails_after_spawned started defaultOpts defaultOpts
      .ok [] []).1 rfl,
    ((second_run_fails_after_spawned started defaultOpts defaultOpts
      .ok [] []).2 rfl).1,
    ((second_run_fails_after_spawned started defaultOpts defaultOpts
      .ok [] []).2 rfl).2⟩

/-- C6: once the process has been started and a result has been
produced, `stopped` is true, a further `stop()` call throws the
already-killed error, and `stopped` remains true after any further
event. -/
theorem stopped_permanent_and_second_stop_throws :
    ∀ (s : RunState) (force : Bool) (sg : Option String)
      (opts : RunOptions) (e : REvent),
      s.stopped = true →
      (stop force sg s).2 = true ∧ (step opts s e).stopped = true := by
  intro s force sg opts e h
  exact ⟨stop_snd_of_stopped force sg s h, step_stopped opts s e h⟩

/-- Witness for C6 at a started-and-terminated state. -/
theorem stopped_permanent_and_second_stop_throws_witness :
    ({ childProcess := true,
       processResult := some { exitCode := some 0, error := none,
                               stdout := "", stderr := "", signal := none } }
      : RunState).stopped = true
    ∧ ((stop true none
          { childProcess := true,
            processResult := some { exitCode := some 0, error := none,
                                    stdout := "", stderr := "",
                                    signal := none } }).2 = true
      ∧ (step defaultOpts
          { childProcess := true,
            processResult := some { exitCode := some 0, error := none,
                                    stdout := "", stderr := "",
                                    signal := none } }
          (.closed (some 0) none)).stopped = true) :=
  ⟨by decide,
    stopped_permanent_and_second_stop_throws _ true none defaultOpts
      (.closed (some 0) none) (by decide)⟩

/-- C7: a `Timeout` token that is already completed at attach time makes
`run()` fail immediately — the executor throws, so the returned promise
is rejected with the configuration error — and `spawn` is never
reached. -/
theorem completed_timeout_fails_without_spawn :
    ∀ (inst : RunState) (opts : RunOptions) (spawn : SpawnOutcome)
      (events : List REvent),
      inst.childProcess = false → opts.hasTimeout = true →
      opts.timeoutCompleted = true →
      (runModel inst opts spawn events).spawnAttempted = false
      ∧ (runModel inst opts spawn events).finalState.settle
          = .rejected timeoutCompletedMsg := by
  intro inst opts spawn events h1 h2 h3
  unfold runModel
  rw [if_neg (by simp [h1]), if_pos (by simp [h2, h3])]
  exact ⟨rfl, rfl⟩

/-- Witness for C7 on a fresh instance with a completed token. -/
theorem completed_timeout_fails_without_spawn_witness :
    (({} : RunState).childProcess = false
      ∧ ({ hasTimeout := true, timeoutCompleted := true }
          : RunOptions).hasTimeout = true
      ∧ ({ hasTimeout := true, timeoutCompleted := true }
          : RunOptions).timeoutCompleted = true)
    ∧ ((runModel {} { hasTimeout := true, timeoutCompleted := true } .ok []
        ).spawnAttempted = false
      ∧ (runModel {} { hasTimeout := true, timeoutCompleted := true } .ok []
        ).finalState.settle = .rejected timeoutCompletedMsg) :=
  ⟨⟨rfl, rfl, rfl⟩,
    completed_timeout_fails_without_spawn {}
      { hasTimeout := true, timeoutCompleted := true } .ok [] rfl rfl rfl⟩

/-- C8: a timeout expiry (or early cancellation) delivered through
`timeout.timer.catch` is routed into the shared `errorHandler` with the
force flag hard-coded to `true`, so — whatever `useForceStop` says —
the stop it triggers on a live, unfinished process is a forced stop. -/
theorem timeout_expiry_forces_stop :
    ∀ (opts : RunOptions) (s : RunState) (e : JsError),
      s.settle = .pending →
      step opts s (.timerExpired e) = errorHandler opts e true s
      ∧ (s.childProcess = true → s.processResult = none →
          (step opts s (.timerExpired e)).stopCalls
            = s.stopCalls ++ [true]) := by
  intro opts s e hp
  have hstep : step opts s (.timerExpired e) = errorHandler opts e true s := by
    simp [step, hp]
  refine ⟨hstep, fun hcp hpr => ?_⟩
  rw [hstep]
  exact errorHandler_stopCalls_of_live opts e true s hcp hpr

/-- Witness for C8 on a freshly started run with `useForceStop = false`. -/
theorem timeout_expiry_forces_stop_witness :
    started.settle = .pending
    ∧ (step defaultOpts started (.timerExpired "Timed out")
        = errorHandler defaultOpts "Timed out" true started
      ∧ (started.childProcess = true → started.processResult = none →
          (step defaultOpts started (.timerExpired "Timed out")).stopCalls
            = started.stopCalls ++ [true])) :=
  ⟨rfl, timeout_expiry_forces_stop defaultOpts started "Timed out" rfl⟩

/-- C9: whenever `run()` resolves, the `error` field of the resolved
result is exactly the first error observed by the listeners during the
run (later observed errors are recorded but never reach the result). -/
theorem result_error_is_first_observed :
    ∀ (opts : RunOptions) (events : List REvent) (r : ChildProcessResult),
      (runModel {} opts .ok events).finalState.settle = .resolved r →
      r.error = (errorsOf (observedPrefix opts started events)).head? := by
  intro opts events r hr
  cases hg : (opts.hasTimeout && opts.timeoutCompleted) with
  | true =>
    unfold runModel at hr
    rw [if_neg (by decide), if_pos (by simp [hg])] at hr
    simp at hr
  | false =>
    rw [runModel_ok_eq opts events hg] at hr
    simp only at hr
    have hInv : ResolvedErrInv (events.foldl (step opts) started) := by
      refine foldl_preserves_resolvedErrInv opts events started ?_
      intro r0 h0
      rw [show started.settle = Settle.pending from rfl] at h0
      cases h0
    have herr := hInv r hr
    rw [herr, foldl_processErrors opts events started]
    rfl

/-- Witness for C9: two errors then a clean close — the resolved error
is the first error, "boom1". -/
theorem result_error_is_first_observed_witness :
    (runModel {} defaultOpts .ok
      [.procError "boom1", .procError "boom2", .closed (some 0) none]
    ).finalState.settle
      = .resolved { exitCode := some 0, error := some "boom1", stdout := "",
                    stderr := "", signal := none }
    ∧ ({ exitCode := some 0, error := some "boom1", stdout := "",
         stderr := "", signal := none } : ChildProcessResult).error
        = (errorsOf (observedPrefix defaultOpts started
            [.procError "boom1", .procError "boom2",
             .closed (some 0) none])).head? :=
  ⟨by decide,
    result_error_is_first_observed defaultOpts
      [.procError "boom1", .procError "boom2", .closed (some 0) none]
      { exitCode := some 0, error := some "boom1", stdout := "",
        stderr := "", signal := none } (by decide)⟩

/-- C10: the two terminal listeners treat a null exit code
asymmetrically — the exit listener caches a result with the null code
mapped to −1 (and a null signal left as undefined), whereas the close
listener caches and resolves the raw close code and signal with no
sentinel mapping. -/
theorem terminal_event_code_mapping_asymmetry :
    ∀ (opts : RunOptions) (s : RunState) (c : Option Int)
      (sg sg2 : Option String),
      s.settle = .pending → s.exitFired = false → s.closeFired = false →
      (step opts s (.exited none sg)).processResult
        = some (makeResult s (some (-1)) sg)
      ∧ (step opts s (.closed c sg2)).processResult
        = some (makeResult s c sg2) := by
  intro opts s c sg sg2 hp hf hc
  constructor
  · rw [show step opts s (.exited none sg) = onExit opts none sg s by
      simp [step, hp]]
    exact onExit_processResult_of_live opts none sg s hf
  · rw [show step opts s (.closed c sg2) = onClose c sg2 s by
      simp [step, hp]]
    exact onClose_processResult_of_live c sg2 s hc

/-- Witness for C10 on a freshly started run: exit(null) caches
`exitCode = -1`; close(null) caches `exitCode = null`. -/
theorem terminal_event_code_mapping_asymmetry_witness :
    (started.settle = .pending ∧ started.exitFired = false
      ∧ started.closeFired = false)
    ∧ ((step defaultOpts started (.exited none none)).processResult
        = some (makeResult started (some (-1)) none)
      ∧ (step defaultOpts started (.closed none (some "SIGTERM"))
        ).processResult
        = some (makeResult started none (some "SIGTERM"))) :=
  ⟨⟨rfl, rfl, rfl⟩,
    terminal_event_code_mapping_asymmetry defaultOpts started none none
      (some "SIGTERM") rfl rfl rfl⟩

/-- C4: in a forced stop, if the process is still not `stopped` at every
poll of the bounded wait (3000ms deadline, 200ms interval), an
unconditional SIGKILL is issued; a failing kill only logs a warning,
and no error ever escapes the escalation chain. -/
theorem forced_stop_escalates_to_sigkill :
    ∀ (stoppedPoll : Nat → Bool) (sigkillFails : Bool),
      (∀ t ∈ pollTimes 3000 200, stoppedPoll t = false) →
      (forceStopEscalation stoppedPoll sigkillFails).sigkillSent = true
      ∧ (sigkillFails = true →
          (forceStopEscalation stoppedPoll sigkillFails).warnLogged = true)
      ∧ (forceStopEscalation stoppedPoll sigkillFails).errorPropagated
          = false := by
  intro poll fails h
  have hw : waitUntilModel poll 3000 200 = false := by
    unfold waitUntilModel
    cases hx : (pollTimes 3000 200).any poll with
    | false => rfl
    | true =>
      exfalso
      rcases List.any_eq_true.mp hx with ⟨t, ht, hpt⟩
      rw [h t ht] at hpt
      cases hpt
  unfold forceStopEscalation
  rw [hw]
  cases fails with
  | false => exact ⟨rfl, fun hf => absurd hf (by decide), rfl⟩
  | true => exact ⟨rfl, fun hf => rfl, rfl⟩

/-- Witness for C4 with a process that never reports stopped and a
failing SIGKILL delivery. -/
theorem forced_stop_escalates_to_sigkill_witness :
    (∀ t ∈ pollTimes 3000 200, (fun _ => false : Nat → Bool) t = false)
    ∧ ((forceStopEscalation (fun _ => false) true).sigkillSent = true
      ∧ (true = true →
          (forceStopEscalation (fun _ => false) true).warnLogged = true)
      ∧ (forceStopEscalation (fun _ => false) true).errorPropagated
          = false) :=
  ⟨fun _ _ => rfl,
    forced_stop_escalates_to_sigkill (fun _ => false) true (fun _ _ => rfl)⟩

end ChildProcessModel
